import Mathlib

/-!
Verification of the diff-analyser service (pooshans/risk_analyser).

Shallow embedding of the webhook classifier, metadata extractors, GitHub
client file fetch, diff parser and step-3 payload assembly from
src/diff-analyser/app. Python dictionaries are modelled with an explicit
three-way field state: a key can be absent, present with a null value, or
present with a typed value. This mirrors the distinctions the code makes
via dict.get, the in operator and truthiness checks.
-/

set_option autoImplicit false

/-- JField models the state of one key of a JSON object as the Python code
observes it: the key is absent, the key is present with value None, or the
key is present with a typed value. -/
inductive JField (α : Type) where
  | absent
  | null
  | val (a : α)
deriving DecidableEq, Repr

/-- Models dict.get(k) with no default: absent and null both yield None. -/
def JField.toOption {α : Type} : JField α → Option α
  | .val a => some a
  | _ => none

/-- Models the Python membership test k in d: null values still count as
present. -/
def JField.present {α : Type} : JField α → Bool
  | .absent => false
  | _ => true

/-- Models pr_data.get(k, d) for a string key followed by the pydantic
none-to-default validators of PRMetadata: an absent key takes the get
default and a null value takes the validator default, which coincide for
every field the code builds this way. -/
def strOrDefault (f : JField String) (d : String) : String :=
  match f with
  | .val s => s
  | _ => d

/-- Nested object of the user key of a pull_request object. -/
structure UserData where
  login : JField String := .absent
deriving DecidableEq, Repr

/-- Nested object of the base and head keys of a pull_request object. -/
structure RefData where
  ref : JField String := .absent
deriving DecidableEq, Repr

/-- Nested object of the repository key of a webhook delivery. -/
structure RepoData where
  full_name : JField String := .absent
deriving DecidableEq, Repr

/-- Fields of a pull_request object that the code reads. The same shape is
reused for the sanitised GitHub API response consumed by
create_pr_metadata_from_api. -/
structure PRData where
  number : JField Int := .absent
  user : JField UserData := .absent
  title : JField String := .absent
  body : JField String := .absent
  base : JField RefData := .absent
  head : JField RefData := .absent
  created_at : JField String := .absent
  state : JField String := .absent
  draft : JField Bool := .absent
deriving DecidableEq, Repr

/-- Top-level fields of a webhook delivery that the code reads. -/
structure Payload where
  action : JField String := .absent
  pull_request : JField PRData := .absent
  number : JField Int := .absent
  repository : JField RepoData := .absent
deriving DecidableEq, Repr

/-- Drops leading whitespace characters from a character list. -/
def trimLeftChars : List Char → List Char
  | [] => []
  | c :: cs => if c.isWhitespace then trimLeftChars cs else c :: cs

/-- Models the Python str.strip method: removes whitespace from both ends. -/
def pyStrip (s : String) : String :=
  String.mk ((trimLeftChars (trimLeftChars s.data).reverse).reverse)

/-- Models the Python str.lower method on ASCII text. -/
def pyLower (s : String) : String :=
  String.mk (s.data.map Char.toLower)

/-- Splits a character list on a separator character, keeping empty parts,
matching the Python str.split method with an explicit separator. -/
def splitOnChar (sep : Char) : List Char → List (List Char)
  | [] => [[]]
  | c :: cs =>
    match splitOnChar sep cs with
    | [] => [[]]
    | h :: t => if c = sep then [] :: h :: t else (c :: h) :: t

/-- Models the Python split of a string on one separator character. -/
def pySplit (sep : Char) (s : String) : List String :=
  (splitOnChar sep s.data).map String.mk

/-- Prefix test on character lists. -/
def startsWithChars : List Char → List Char → Bool
  | _, [] => true
  | [], _ :: _ => false
  | c :: cs, p :: ps => c = p && startsWithChars cs ps

/-- Models the Python str.startswith method. -/
def pyStartsWith (s pre : String) : Bool :=
  startsWithChars s.data pre.data

/-- Models the Python slice s[n:]. -/
def pyDrop (s : String) (n : Nat) : String :=
  String.mk (s.data.drop n)

/-- Models the Python slice s[:n]. -/
def pyTake (s : String) (n : Nat) : String :=
  String.mk (s.data.take n)

/-- Models the Python len of a string, counted in characters. -/
def pyLen (s : String) : Nat :=
  s.data.length

/-- Models the Python join of a list of lines with a newline separator. -/
def joinLines : List String → String
  | [] => ""
  | [s] => s
  | s :: rest => s ++ "\n" ++ joinLines rest

/-- Models str(payload.get(action_key, empty)).lower().strip() from
webhook_handler.py line 168: an absent key gives the empty string, a null
value gives the string none, because str applied to None in Python yields
the text None, and a string value is lower-cased and trimmed. -/
def computeAction (f : JField String) : String :=
  match f with
  | .absent => ""
  | .null => "none"
  | .val s => pyStrip (pyLower s)

/-- The fixed allow-list of relevant PR actions from webhook_handler.py
lines 209 to 224. -/
def relevant_actions : List String :=
  [("opened"), ("synchronize"), ("reopened"), ("ready_for_review"),
   ("edited"), ("review_requested"), ("assigned"), ("unassigned"),
   ("labeled"), ("unlabeled"), ("closed"), ("converted_to_draft"),
   ("auto_merge_enabled"), ("auto_merge_disabled")]

/-- Result of event classification: the boolean decision together with the
reason text the code logs at the corresponding return site. -/
structure ClassifyResult where
  accept : Bool
  reason : String
deriving DecidableEq, Repr

/-- Models the computed repo_name of the classifier, namely
payload.get(repository_key, empty_dict).get(full_name_key, unknown): the
result is the Python string or None when full_name is null; the case of a
null repository object raises AttributeError before this value is used and
is handled separately in classifyEvent. -/
def repo_name (p : Payload) : Option String :=
  match p.repository with
  | .absent => some ("unknown")
  | .null => none
  | .val rd =>
    match rd.full_name with
    | .absent => some ("unknown")
    | .null => none
    | .val s => some s

/-- Truthiness of the classifier value pr_data.get(number_key) or
payload.get(number_key) from webhook_handler.py line 195. -/
def classifierPrNum (pd : PRData) (p : Payload) : Bool :=
  (match pd.number with | .val n => n != 0 | _ => false) ||
  (match p.number with | .val n => n != 0 | _ => false)

/-- Embedding of WebhookHandler dot is_relevant_pr_event,
webhook_handler.py lines 162 to 261, including the permissive catch-all
that accepts the event when the body of the function raises, which happens
exactly when a present repository key holds a null value and the code
calls get on None. -/
def classifyEvent (p : Payload) : ClassifyResult :=
  let action := computeAction p.action
  match p.pull_request with
  | JField.val pd =>
    match p.repository with
    | JField.null =>
      { accept := true, reason := ("Error in validation - accepting event for debugging") }
    | frep =>
      let prNum := classifierPrNum pd p
      let repoNU :=
        match frep with
        | JField.absent => false
        | JField.null => true
        | JField.val rd =>
          match rd.full_name with
          | JField.absent => false
          | JField.null => true
          | JField.val s => s != "unknown"
      if action == "" && prNum then
        { accept := true, reason := ("No action specified but has PR data") }
      else if relevant_actions.contains action then
        { accept := true, reason := ("Action is relevant") }
      else if prNum && repoNU then
        { accept := true, reason := ("Unknown action but has valid PR data") }
      else if prNum && repoNU then
        { accept := true, reason := ("Has PR number and repository") }
      else
        { accept := false, reason := ("Action not recognized and insufficient PR data") }
  | _ =>
    if p.number.present && p.repository.present then
      match p.repository with
      | JField.null =>
        { accept := true, reason := ("Error in validation - accepting event for debugging") }
      | _ =>
        { accept := true, reason := ("Event has PR number and repository") }
    else
      { accept := false, reason := ("No pull_request data and no number/repository fields") }

/-- Boolean decision of the classifier. -/
def is_relevant_pr_event (p : Payload) : Bool :=
  (classifyEvent p).accept

/-- The wrapped error text produced when the extractor body raises an
AttributeError by calling get on None, which webhook_handler.py lines 313
to 317 turn into a WebhookValidationError. -/
def attrError : String := "Failed to extract PR metadata: AttributeError"

/-- Models payload.get(pull_request_key, empty_dict) under the guard that
the value is not null: an absent key yields the empty dictionary. -/
def prDict (f : JField PRData) : PRData :=
  match f with
  | .val d => d
  | _ => {}

/-- Models payload.get(repository_key, empty_dict) under the guard that
the value is not null: an absent key yields the empty dictionary. -/
def repoDict (f : JField RepoData) : RepoData :=
  match f with
  | .val d => d
  | _ => {}

/-- Embedding of the pydantic model PRMetadata from models.py lines 17 to
56: the validators guarantee every string field holds a defined string, so
the fields are plain Lean strings. -/
structure PRMetadata where
  pr_number : Int
  repository : String
  author : String
  title : String
  description : String
  base_branch : String
  head_branch : String
  created_at : String
deriving DecidableEq, Repr

/-- Models the author extraction pr_data.get(user_key, empty).get(login_key,
unknown) plus the pydantic none-to-unknown validator, under the guard that
the user value is not null. -/
def userLogin (f : JField UserData) : String :=
  match f with
  | .val u => strOrDefault u.login ("unknown")
  | _ => "unknown"

/-- Models pr_data.get(k, empty).get(ref_key, d) for the base and head
branch fields plus the pydantic validators, under the guard that the value
is not null. -/
def refOrDefault (f : JField RefData) (d : String) : String :=
  match f with
  | .val r => strOrDefault r.ref d
  | _ => d

/-- Models the webhook title extraction pr_data.get(title_key, no_title)
followed by the pydantic validator handle_none_title: an absent key takes
the get default with a lower-case t, while a null value reaches the
validator, whose default has a capital T. -/
def webhookTitle (f : JField String) : String :=
  match f with
  | .absent => "No title"
  | .null => "No Title"
  | .val s => s

/-- The PRMetadata record built by webhook_handler.py lines 290 to 308
once the required checks have passed. -/
def buildMeta (n : Int) (repo : String) (pd : PRData) : PRMetadata :=
  { pr_number := n
    repository := repo
    author := userLogin pd.user
    title := webhookTitle pd.title
    description := strOrDefault pd.body ""
    base_branch := refOrDefault pd.base ("main")
    head_branch := refOrDefault pd.head ("unknown")
    created_at := strOrDefault pd.created_at "" }

/-- Embedding of WebhookHandler dot extract_pr_metadata,
webhook_handler.py lines 263 to 317. A null pull_request or repository
object makes get raise AttributeError, caught and wrapped at line 317; a
missing or zero PR number fails the truthiness check at line 284; a
missing or empty repository full name fails the check at line 287; a null
user, base or head object raises AttributeError while the optional fields
are read. Note that the top-level number field of the payload is never
consulted here. -/
def extract_pr_metadata (p : Payload) : Except String PRMetadata :=
  match p.pull_request, p.repository with
  | JField.null, _ => .error attrError
  | _, JField.null => .error attrError
  | fpr, frep =>
    let pd := prDict fpr
    let rd := repoDict frep
    match pd.number.toOption with
    | none => .error ("PR number missing from payload")
    | some n =>
      if n = 0 then .error ("PR number missing from payload")
      else
        match rd.full_name.toOption with
        | none => .error ("Repository name missing from payload")
        | some repo =>
          if repo = "" then .error ("Repository name missing from payload")
          else
            match pd.user, pd.base, pd.head with
            | JField.null, _, _ => .error attrError
            | _, JField.null, _ => .error attrError
            | _, _, JField.null => .error attrError
            | _, _, _ => .ok (buildMeta n repo pd)

/-- Models the nested helper safe_get of main.py lines 528 to 535 for a
two-level path: any absent key or null value along the path yields the
default, otherwise the final string value is returned. -/
def safeGetNested {α : Type} (f : JField α) (proj : α → JField String) (d : String) : String :=
  match f with
  | .val u => strOrDefault (proj u) d
  | _ => d

/-- Embedding of the helper create_pr_metadata_from_api, main.py lines 523
to 546, on the on-demand path. The number is read with a get default of 0,
so an absent number key produces pr_number 0; a null number reaches the
pydantic integer field, which rejects None with a validation error. All
string fields are read through safe_get and therefore always defined. -/
def create_pr_metadata_from_api (d : PRData) (repo : String) : Except String PRMetadata :=
  match d.number with
  | JField.null => .error ("pr_number: none is not an allowed value")
  | fn =>
    let n := match fn with | JField.val m => m | _ => 0
    .ok
      { pr_number := n
        repository := repo
        author := safeGetNested d.user (fun u => u.login) ("unknown")
        title := strOrDefault d.title ("No Title")
        description := strOrDefault d.body ""
        base_branch := safeGetNested d.base (fun r => r.ref) ("main")
        head_branch := safeGetNested d.head (fun r => r.ref) ("unknown")
        created_at := strOrDefault d.created_at "" }

/-- Raw per-file record of the GitHub files response as read by
github_client.py lines 131 to 138, with the three-way field state. -/
structure RawFile where
  filename : JField String := .absent
  status : JField String := .absent
  additions : JField Int := .absent
  deletions : JField Int := .absent
  patch : JField String := .absent
deriving DecidableEq, Repr

/-- Sanitised per-file record produced by get_pr_files. The numeric fields
stay optional because file_data.get(k, 0) only substitutes 0 for an absent
key, while a present null value passes through as None. -/
structure SafeFile where
  filename : String
  status : String
  additions : Option Int
  deletions : Option Int
  patch : String
deriving DecidableEq, Repr

/-- Models the Python expression file_data.get(k) or d for a string key:
an absent key, a null value and an empty string all take the default. -/
def orDefault (f : JField String) (d : String) : String :=
  match f with
  | .val s => if s = "" then d else s
  | _ => d

/-- Models file_data.get(k, 0) for a numeric key: an absent key yields 0,
a null value stays None, a number passes through. -/
def numGetZero (f : JField Int) : Option Int :=
  match f with
  | .absent => some 0
  | .null => none
  | .val n => some n

/-- The sanitisation of one file record, github_client.py lines 132 to
138. -/
def safeFile (r : RawFile) : SafeFile :=
  { filename := orDefault r.filename ("unknown_file")
    status := orDefault r.status ("modified")
    additions := numGetZero r.additions
    deletions := numGetZero r.deletions
    patch := orDefault r.patch "" }

/-- The synthetic placeholder list returned by get_mock_files_data,
github_client.py lines 147 to 164, as consumed through dict.get by the
diff parser. -/
def mock_files_data : List SafeFile :=
  [{ filename := "src/example.py", status := "modified", additions := some 10,
     deletions := some 5,
     patch := "@@ -1,5 +1,10 @@\n def example():\n-    pass\n+    return True" },
   { filename := "README.md", status := "modified", additions := some 2,
     deletions := some 1,
     patch := "@@ -1,3 +1,4 @@\n # Project\n+Updated documentation" }]

/-- Outcome of the HTTP interaction of get_pr_files: the request can fail
on the network, the status check can raise, the body can fail to parse or
fail to be a list of objects, or a list of records is obtained. Every
non-success outcome raises inside the fetch and is caught either by the
RequestException handler at github_client.py line 143 or by the catch-all
at line 114, so the caller always receives a list. -/
inductive FilesResponse where
  | netError
  | httpError
  | jsonError
  | malformed
  | files (fs : List RawFile)
deriving DecidableEq, Repr

/-- Embedding of GitHubClient dot get_pr_files, github_client.py lines 99
to 145: total over all response outcomes, returning the sanitised records
on success and the placeholder list on every failure. -/
def get_pr_files (resp : FilesResponse) : List SafeFile :=
  match resp with
  | .files fs => fs.map safeFile
  | _ => mock_files_data

/-- Embedding of the pydantic model FileDiff from models.py lines 59 to
80. -/
structure FileDiff where
  file_path : String
  change_type : String
  additions : Int
  deletions : Int
  patch : String
deriving DecidableEq, Repr

/-- Models the FileDiff construction of diff_parser.py lines 45 to 51: the
string fields of a sanitised record are always defined, but a null numeric
value reaches the pydantic integer field and raises a validation error,
which the surrounding try block turns into the fallback result. -/
def toFileDiff (f : SafeFile) : Option FileDiff :=
  match f.additions, f.deletions with
  | some a, some d =>
    some { file_path := f.filename, change_type := f.status,
           additions := a, deletions := d, patch := f.patch }
  | _, _ => none

/-- Embedding of the pydantic model ParsedDiff from models.py lines 83 to
90. -/
structure ParsedDiff where
  pr_metadata : PRMetadata
  modified_files : List FileDiff
  commit_messages : List String
  total_additions : Int
  total_deletions : Int
deriving DecidableEq, Repr

/-- Embedding of DiffParser dot parse_pr_diff, diff_parser.py lines 20 to
89: on success the totals are accumulated from the per-file additions and
deletions in the loop of lines 44 to 54; on any internal fault the minimal
fallback of lines 75 to 89 is returned with one mock file and zero
totals. -/
def parse_pr_diff (meta : PRMetadata) (resp : FilesResponse) : ParsedDiff :=
  match (get_pr_files resp).mapM toFileDiff with
  | some fds =>
    { pr_metadata := meta
      modified_files := fds
      commit_messages := [("Changes in PR ") ++ toString meta.pr_number]
      total_additions := (fds.map (fun fd => fd.additions)).sum
      total_deletions := (fds.map (fun fd => fd.deletions)).sum }
  | none =>
    { pr_metadata := meta
      modified_files := [{ file_path := "error/mock.py", change_type := "modified",
                           additions := 0, deletions := 0,
                           patch := "Error occurred during parsing" }]
      commit_messages := [("Error parsing commits")]
      total_additions := 0
      total_deletions := 0 }

/-- Embedding of the helper get_file_extension, main.py lines 250 to 252:
the text after the last dot, or the empty string when the path has no
dot. -/
def get_file_extension (p : String) : String :=
  if p.data.contains ('.') then (pySplit ('.') p).getLastD "" else ""

/-- The set of code file extensions from main.py line 257. -/
def code_extensions : List String :=
  [(".py"), (".js"), (".java"), (".ts"), (".go"), (".cpp"), (".c"),
   (".rb"), (".php"), (".cs"), (".jsx"), (".tsx")]

/-- Embedding of the helper is_code_file, main.py lines 255 to 259. -/
def is_code_file (p : String) : Bool :=
  code_extensions.contains (pyLower (("." ) ++ get_file_extension p))

/-- Embedding of the helper extract_context_from_patch, main.py lines 299
to 315: keeps added lines, meaning lines starting with a plus sign but not
with three of them, and context lines starting with one space, strips the
one-character prefix, joins the first 10 such lines with newlines, and
substitutes fixed messages for an empty patch or an empty extraction. -/
def extract_context_from_patch (patch : String) : String :=
  if patch = "" then "No patch content available"
  else
    let lines := pySplit ('\n') patch
    let contextLines := lines.filterMap (fun l =>
      if pyStartsWith l ("+") && !pyStartsWith l ("+++") then some (pyDrop l 1)
      else if pyStartsWith l (" ") then some (pyDrop l 1)
      else none)
    let context := joinLines (contextLines.take 10)
    if context = "" then "Context extraction failed" else context

/-- Models the truncation expression of main.py line 497 on the on-demand
path: the first 500 characters followed by an ellipsis when the patch is
longer than 500 characters, the patch itself otherwise. -/
def truncatePatch (s : String) : String :=
  if pyLen s > 500 then pyTake s 500 ++ "..." else s

/-- Per-file entry of the step 3 payload on the on-demand path, main.py
lines 491 to 500. -/
structure FilePayload where
  file_path : String
  change_type : String
  additions : Int
  deletions : Int
  patch : String
deriving DecidableEq, Repr

/-- Per-file entry of the step 3 payload on the webhook path, main.py
lines 200 to 211, which also carries the file extension and the code-file
flag. -/
structure WebhookFilePayload where
  file_path : String
  change_type : String
  additions : Int
  deletions : Int
  patch : String
  file_extension : String
  is_code : Bool
deriving DecidableEq, Repr

/-- Embedding of the modified_files comprehension of the on-demand helper
prepare_step_3_payload, main.py lines 491 to 500. -/
def step3_modified_files (fds : List FileDiff) : List FilePayload :=
  fds.map (fun fd =>
    { file_path := fd.file_path, change_type := fd.change_type,
      additions := fd.additions, deletions := fd.deletions,
      patch := truncatePatch fd.patch })

/-- Embedding of the modified_files comprehension of the webhook helper
prepare_step_3_payload_from_webhook, main.py lines 200 to 211: the patch
is forwarded untouched. -/
def webhook_modified_files (fds : List FileDiff) : List WebhookFilePayload :=
  fds.map (fun fd =>
    { file_path := fd.file_path, change_type := fd.change_type,
      additions := fd.additions, deletions := fd.deletions,
      patch := fd.patch,
      file_extension := get_file_extension fd.file_path,
      is_code := is_code_file fd.file_path })

/-- Projection of the PR number out of an extraction result. -/
def prNumberOf (e : Except String PRMetadata) : Option Int :=
  match e with
  | .ok m => some m.pr_number
  | .error _ => none

/-- Projection of the title out of an extraction result. -/
def titleOf (e : Except String PRMetadata) : Option String :=
  match e with
  | .ok m => some m.title
  | .error _ => none

/-- Modelled from the spec: the section 4.1 extraction rule determines the
PR number from pull_request.number, falling back to the top-level number
field; the number is determinable when the resulting value is a usable,
nonzero integer. -/
def spec_pr_number_determinable (p : Payload) : Bool :=
  (match p.pull_request with
   | JField.val pd => (match pd.number with | JField.val n => n != 0 | _ => false)
   | _ => false)
  || (match p.number with | JField.val n => n != 0 | _ => false)

/-- The repository object of the delivery carries a full_name value. -/
def repo_full_name_present (p : Payload) : Bool :=
  match p.repository with
  | JField.val rd => (match rd.full_name with | JField.val _ => true | _ => false)
  | _ => false

/-- Boolean success projection of the webhook metadata extraction. -/
def extract_succeeds (p : Payload) : Bool :=
  match extract_pr_metadata p with
  | .ok _ => true
  | .error _ => false

/-- Success condition of the webhook metadata extraction, written out as a
direct predicate on the delivery: a non-null pull_request object with a
nonzero number and no null user, base or head object, together with a
non-null repository object carrying a non-empty full_name. The top-level
number field plays no role. -/
def extract_succeeds_cond (p : Payload) : Bool :=
  (match p.pull_request with
   | JField.val pd =>
     (match pd.number with | JField.val n => n != 0 | _ => false)
     && pd.user != JField.null && pd.base != JField.null && pd.head != JField.null
   | _ => false)
  && (match p.repository with
      | JField.val rd => (match rd.full_name with | JField.val s => s != "" | _ => false)
      | _ => false)

/-- Delivery with a determinable PR number only through the top-level
number field, plus a repository full name. -/
def c4_payload : Payload :=
  { number := JField.val 7,
    repository := JField.val { full_name := JField.val ("o/r") } }

/-- Delivery whose pull_request number is the negative integer -1. -/
def c5_payload : Payload :=
  { pull_request := JField.val { number := JField.val (-1) },
    repository := JField.val { full_name := JField.val ("o/r") } }

/-- Minimal successful webhook delivery: a pull_request object holding
only its number, and a repository full name. -/
def c5_minimal : Payload :=
  { pull_request := JField.val { number := JField.val 5 },
    repository := JField.val { full_name := JField.val ("o/r") } }

/-- API response whose optional fields are all present but null. -/
def c5_api_nulls : PRData :=
  { number := JField.val 3, user := JField.null, title := JField.null,
    body := JField.null, base := JField.null, head := JField.null,
    created_at := JField.null }

/-- Webhook delivery whose pull_request object has no title key. -/
def c8_absent : Payload :=
  { pull_request := JField.val { number := JField.val 1 },
    repository := JField.val { full_name := JField.val ("o/r") } }

/-- Webhook delivery whose pull_request object has a null title. -/
def c8_null : Payload :=
  { pull_request := JField.val { number := JField.val 1, title := JField.null },
    repository := JField.val { full_name := JField.val ("o/r") } }

/-- The raw file record of the C6 scenario. -/
def c6_raw : RawFile :=
  { filename := JField.val ("a.py"), additions := JField.val 10,
    deletions := JField.val 5, patch := JField.val ("@@ ... +x=1\n y=2") }

/-- A fixed metadata value used to drive the diff parser in the C6
scenario. -/
def c6_meta : PRMetadata :=
  { pr_number := 1, repository := "o/r", author := "u", title := "t",
    description := "", base_branch := "main", head_branch := "h", created_at := "" }

/-- A patch with twelve added lines, to exercise the 10-line cap of the
context extraction. -/
def c6_long_patch : String :=
  "@@ h\n+a1\n+a2\n+a3\n+a4\n+a5\n+a6\n+a7\n+a8\n+a9\n+b1\n+b2\n+b3"

/-- A patch of 501 characters, to exercise the truncation branch of the
step 3 payload assembly. -/
def c9_long_patch : String :=
  String.mk (List.replicate 501 ('a'))

/-- Delivery with a null action value next to a pull_request object. -/
def c10_null : Payload :=
  { action := JField.null,
    pull_request := JField.val { number := JField.val 5 } }

/-- C1: for every ParsedDiff value returned by parse_pr_diff, on the
success path and on the internal-fault fallback path alike, the total
additions equal the sum of the per-file additions over modified_files, and
likewise for deletions. -/
theorem C1_parse_pr_diff_totals (meta : PRMetadata) (resp : FilesResponse) :
    (parse_pr_diff meta resp).total_additions
      = ((parse_pr_diff meta resp).modified_files.map (fun fd => fd.additions)).sum
    ∧ (parse_pr_diff meta resp).total_deletions
      = ((parse_pr_diff meta resp).modified_files.map (fun fd => fd.deletions)).sum := by
  unfold parse_pr_diff
  split <;> simp

/-- C6 counterexample: on the patch of the scenario, whose first line is
the hunk header text containing the added text inline, the extracted
context is the single line y=2 and not the two claimed lines x=1 and
y=2. -/
theorem C6_counterexample :
    extract_context_from_patch ("@@ ... +x=1\n y=2") = "y=2"
    ∧ ("y=2" : String) ≠ "x=1\ny=2" := by
  exact ⟨by decide, by decide⟩

set_option maxRecDepth 8192 in
/-- C6 amended: for the raw record of the scenario the assembled per-file
result has file extension py and the code-file flag set, and the context
extracted from its patch is the single line y=2, because the +x=1 text
sits inside the hunk-header line, which starts with an at sign and not
with a plus; added and context lines are otherwise extracted with their
one-character prefix stripped and capped at the first 10 lines. -/
theorem C6_amended :
    webhook_modified_files (parse_pr_diff c6_meta (FilesResponse.files [c6_raw])).modified_files
      = [{ file_path := "a.py", change_type := "modified", additions := 10, deletions := 5,
           patch := "@@ ... +x=1\n y=2", file_extension := "py", is_code := true }]
    ∧ extract_context_from_patch ("@@ ... +x=1\n y=2") = "y=2"
    ∧ extract_context_from_patch c6_long_patch
        = "a1\na2\na3\na4\na5\na6\na7\na8\na9\nb1" := by
  exact ⟨rfl, rfl, rfl⟩

/-- C7: the file fetch is total over every response outcome; all four
failure outcomes return the fixed placeholder list, which is non-empty;
the success outcome returns the sanitised records, and the sanitisation
maps a null filename to unknown_file, a null patch to the empty string, a
null status to modified and an absent numeric field to 0; every record of
the placeholder list itself has non-empty filename and status and defined
numeric fields. -/
theorem C7_get_pr_files_defaults :
    (get_pr_files FilesResponse.netError = mock_files_data
      ∧ get_pr_files FilesResponse.httpError = mock_files_data
      ∧ get_pr_files FilesResponse.jsonError = mock_files_data
      ∧ get_pr_files FilesResponse.malformed = mock_files_data
      ∧ mock_files_data ≠ [])
    ∧ (∀ fs : List RawFile, get_pr_files (FilesResponse.files fs) = fs.map safeFile)
    ∧ (∀ r : RawFile, r.filename = JField.null → (safeFile r).filename = "unknown_file")
    ∧ (∀ r : RawFile, r.patch = JField.null → (safeFile r).patch = "")
    ∧ (∀ r : RawFile, r.status = JField.null → (safeFile r).status = "modified")
    ∧ (∀ r : RawFile, r.additions = JField.absent → (safeFile r).additions = some 0)
    ∧ (∀ r : RawFile, r.deletions = JField.absent → (safeFile r).deletions = some 0)
    ∧ mock_files_data.all
        (fun r => r.filename != "" && r.status != ""
          && r.additions.isSome && r.deletions.isSome) = true := by
  refine ⟨⟨rfl, rfl, rfl, rfl, by decide⟩, fun fs => rfl, ?_, ?_, ?_, ?_, ?_, by decide⟩ <;>
    (intro r h; simp [safeFile, orDefault, numGetZero, h])

/-- C7 witness: the defaulting laws applied to a concrete record whose
filename is null. -/
theorem C7_witness :
    (safeFile { filename := JField.null }).filename = "unknown_file" :=
  C7_get_pr_files_defaults.2.2.1 { filename := JField.null } rfl

set_option maxRecDepth 8192 in
/-- C9: in the assembled step 3 payload, the on-demand path replaces each
patch by its first 500 characters plus an ellipsis exactly when it is
longer than 500 characters, while the webhook path forwards each patch
untouched; the 501-character sample patch is indeed truncated. -/
theorem C9_patch_truncation :
    (∀ fds : List FileDiff,
      (step3_modified_files fds).map (fun f => f.patch)
        = fds.map (fun fd =>
            if pyLen fd.patch > 500 then pyTake fd.patch 500 ++ "..." else fd.patch)
      ∧ (webhook_modified_files fds).map (fun f => f.patch)
        = fds.map (fun fd => fd.patch))
    ∧ pyLen c9_long_patch = 501
    ∧ truncatePatch c9_long_patch = pyTake c9_long_patch 500 ++ "..."
    ∧ truncatePatch ("short") = "short" := by
  have hlen : pyLen c9_long_patch = 501 := by decide
  refine ⟨fun fds => ⟨?_, ?_⟩, hlen, ?_, by decide⟩
  · simp [step3_modified_files, truncatePatch]
  · simp [webhook_modified_files]
  · simp [truncatePatch, hlen]

/-- C2 counterexample: the delivery holding only the allow-listed action
opened, with no pull_request object and no number or repository field, is
rejected by the classifier, because the missing-pull_request branch runs
before the action allow-list is ever consulted. -/
theorem C2_counterexample :
    relevant_actions.contains (computeAction (JField.val ("opened"))) = true
    ∧ is_relevant_pr_event { action := JField.val ("opened") } = false := by
  exact ⟨by decide, by decide⟩

/-- C2 amended: for every delivery whose action, lower-cased and trimmed,
is in the allow-list AND which carries a non-null pull_request object, the
classifier accepts regardless of every other field; without a pull_request
object the allow-list is never consulted. -/
theorem C2_amended (p : Payload) (pd : PRData)
    (hpr : p.pull_request = JField.val pd)
    (hact : relevant_actions.contains (computeAction p.action) = true) :
    is_relevant_pr_event p = true := by
  rcases p with ⟨a, fpr, num, frep⟩
  simp only at hpr
  subst hpr
  unfold is_relevant_pr_event classifyEvent
  rcases frep with _ | _ | rd <;> simp_all <;> split_ifs <;> simp_all

/-- C2 witness: a concrete allow-listed delivery with a pull_request
object is accepted. -/
theorem C2_witness :
    is_relevant_pr_event
      { action := JField.val ("opened"),
        pull_request := JField.val { number := JField.val 5 } } = true :=
  C2_amended _ { number := JField.val 5 } rfl (by decide)

/-- C3: for every delivery whose pull_request field is absent or null, the
classifier accepts exactly when the delivery contains both a number key
and a repository key, and the empty delivery is rejected with the logged
reason naming the missing pull_request data and number and repository
fields. -/
theorem C3_missing_pull_request :
    (∀ p : Payload, p.pull_request = JField.absent ∨ p.pull_request = JField.null →
      (is_relevant_pr_event p = true ↔
        (p.number ≠ JField.absent ∧ p.repository ≠ JField.absent)))
    ∧ classifyEvent {} =
        { accept := false,
          reason := "No pull_request data and no number/repository fields" } := by
  constructor
  · intro p hp
    rcases p with ⟨a, fpr, num, frep⟩
    unfold is_relevant_pr_event classifyEvent
    rcases hp with h | h <;> simp only at h <;> subst h <;>
      rcases num with _ | _ | n <;> rcases frep with _ | _ | rd <;>
      simp [JField.present]
  · rfl

/-- C3 witness: a delivery with no pull_request but with number and
repository keys is accepted. -/
theorem C3_witness :
    is_relevant_pr_event
      { number := JField.val 7,
        repository := JField.val { full_name := JField.val ("o/r") } } = true :=
  (C3_missing_pull_request.1 _ (Or.inl rfl)).mpr (by decide)

/-- C10: a present action key holding a null value is rendered as the
non-empty string none by the str conversion, so such a delivery can never
satisfy the empty-action acceptance rule; alongside a pull_request object,
whenever the computed repository name resolves to unknown the delivery is
rejected, whereas the same delivery with the action key absent entirely,
its PR number being truthy, is accepted by the empty-action rule. -/
theorem C10_null_action :
    (∀ p : Payload, p.action = JField.null →
      computeAction p.action = "none" ∧ computeAction p.action ≠ "")
    ∧ (∀ (p : Payload) (pd : PRData), p.action = JField.null →
        p.pull_request = JField.val pd → repo_name p = some ("unknown") →
        is_relevant_pr_event p = false)
    ∧ (∀ (p : Payload) (pd : PRData), p.action = JField.null →
        p.pull_request = JField.val pd → classifierPrNum pd p = true →
        repo_name p = some ("unknown") →
        is_relevant_pr_event { p with action := JField.absent } = true) := by
  refine ⟨fun p hp => by simp [hp, computeAction], ?_, ?_⟩
  · intro p pd ha hpr hrn
    rcases p with ⟨a, fpr, num, frep⟩
    simp only at ha hpr
    subst ha; subst hpr
    unfold is_relevant_pr_event classifyEvent
    rcases frep with _ | _ | rd <;> simp_all [repo_name, computeAction, pyStrip, pyLower,
      trimLeftChars, relevant_actions]
    · rcases rd with ⟨fn⟩
      rcases fn with _ | _ | s <;> simp_all
  · intro p pd ha hpr hnum hrn
    rcases p with ⟨a, fpr, num, frep⟩
    simp only at ha hpr
    subst ha; subst hpr
    unfold is_relevant_pr_event classifyEvent
    rcases frep with _ | _ | rd <;> simp_all [repo_name, computeAction, classifierPrNum]

/-- C10 witness: the concrete null-action delivery is rejected while its
action-free twin is accepted. -/
theorem C10_witness :
    is_relevant_pr_event c10_null = false
    ∧ is_relevant_pr_event { c10_null with action := JField.absent } = true :=
  ⟨C10_null_action.2.1 c10_null { number := JField.val 5 } rfl rfl rfl,
   C10_null_action.2.2 c10_null { number := JField.val 5 } rfl rfl (by decide) rfl⟩

/-- Helper: a successful webhook extraction pins down the shape of the
delivery and the produced metadata record. -/
theorem extract_ok_fields (p : Payload) (m : PRMetadata)
    (h : extract_pr_metadata p = Except.ok m) :
    ∃ pd rd n s,
      p.pull_request = JField.val pd ∧ p.repository = JField.val rd
      ∧ pd.number = JField.val n ∧ n ≠ 0
      ∧ rd.full_name = JField.val s ∧ s ≠ ""
      ∧ m = buildMeta n s pd := by
  rcases p with ⟨a, fpr, num, frep⟩
  rcases fpr with _ | _ | ⟨⟨fn, fu, ft, fb, fba, fh, fc, fs, fd⟩⟩ <;>
    rcases frep with _ | _ | ⟨⟨ffn⟩⟩ <;>
    simp [extract_pr_metadata, prDict, repoDict, JField.toOption] at h
  all_goals try rcases fn with _ | _ | n
  all_goals try rcases ffn with _ | _ | s
  all_goals simp [JField.toOption] at h
  all_goals split_ifs at h with h1 h2
  rcases fu with _ | _ | u <;> rcases fba with _ | _ | ba <;> rcases fh with _ | _ | he <;>
    simp at h <;>
    exact ⟨_, _, n, s, rfl, rfl, rfl, h1, rfl, h2, h.symm⟩

/-- C4 counterexample: the delivery with a top-level number 7 and a
repository full name has a determinable PR number under the fallback rule
of the spec, yet the extractor raises the missing-PR-number validation
error, because it only ever reads pull_request.number. -/
theorem C4_counterexample :
    spec_pr_number_determinable c4_payload = true
    ∧ repo_full_name_present c4_payload = true
    ∧ extract_pr_metadata c4_payload = Except.error ("PR number missing from payload") :=
  ⟨by decide, by decide, rfl⟩

/-- C4 amended: webhook metadata extraction succeeds exactly when the
delivery carries a non-null pull_request object with a nonzero number and
non-null user, base and head fields, and a non-null repository object with
a non-empty full_name; the top-level number field is never consulted. -/
theorem C4_amended (p : Payload) : extract_succeeds p = extract_succeeds_cond p := by
  rcases p with ⟨a, fpr, num, frep⟩
  rcases fpr with _ | _ | ⟨⟨fn, fu, ft, fb, fba, fh, fc, fs, fd⟩⟩ <;>
    rcases frep with _ | _ | ⟨⟨ffn⟩⟩ <;>
    simp [extract_succeeds, extract_succeeds_cond, extract_pr_metadata, prDict, repoDict,
      JField.toOption]
  all_goals try rcases fn with _ | _ | n
  all_goals try rcases ffn with _ | _ | s
  all_goals simp [JField.toOption]
  all_goals split_ifs
  all_goals try simp_all
  all_goals rcases fu with _ | _ | u <;> rcases fba with _ | _ | ba <;>
    rcases fh with _ | _ | he <;> simp_all

/-- C5 counterexample: a delivery whose pull_request number is -1 passes
the truthiness check and produces a PRMetadata value whose pr_number is
-1, which is not greater than 0. -/
theorem C5_counterexample :
    prNumberOf (extract_pr_metadata c5_payload) = some (-1)
    ∧ ¬((-1 : Int) > 0) :=
  ⟨rfl, by decide⟩

/-- C5 amended: every PRMetadata value the webhook extractor produces has
a nonzero pr_number, but positivity is not guaranteed, and the on-demand
constructor even produces pr_number 0 when the API data has no number key;
all string fields of produced values are defined strings, with the
documented defaults substituted for missing or null sources, as the two
closed evaluations show. -/
theorem C5_amended :
    (∀ (p : Payload) (m : PRMetadata),
      extract_pr_metadata p = Except.ok m → m.pr_number ≠ 0)
    ∧ prNumberOf (create_pr_metadata_from_api {} ("o/r")) = some 0
    ∧ extract_pr_metadata c5_minimal
        = Except.ok { pr_number := 5, repository := "o/r", author := "unknown",
                      title := "No title", description := "", base_branch := "main",
                      head_branch := "unknown", created_at := "" }
    ∧ create_pr_metadata_from_api c5_api_nulls ("o/r")
        = Except.ok { pr_number := 3, repository := "o/r", author := "unknown",
                      title := "No Title", description := "", base_branch := "main",
                      head_branch := "unknown", created_at := "" } := by
  refine ⟨?_, rfl, rfl, rfl⟩
  intro p m h
  obtain ⟨pd, rd, n, s, hpr, hrep, hn, hn0, hs, hs0, hm⟩ := extract_ok_fields p m h
  subst hm
  simpa [buildMeta] using hn0

/-- C5 witness: the metadata extracted from the minimal delivery has a
nonzero pr_number. -/
theorem C5_witness :
    ({ pr_number := 5, repository := "o/r", author := "unknown", title := "No title",
       description := "", base_branch := "main", head_branch := "unknown",
       created_at := "" } : PRMetadata).pr_number ≠ 0 :=
  C5_amended.1 c5_minimal _ rfl

/-- C8 counterexample: a missing title key yields the default with a
lower-case t on the webhook path, while a null title yields the pydantic
default with a capital T; the two defaults are different strings, so there
is no single canonical default. -/
theorem C8_counterexample :
    titleOf (extract_pr_metadata c8_absent) = some ("No title")
    ∧ titleOf (extract_pr_metadata c8_null) = some ("No Title")
    ∧ ("No title" : String) ≠ "No Title" :=
  ⟨rfl, rfl, by decide⟩

/-- C8 amended: the extractor never produces a null title, but the default
depends on the path: a missing title key on the webhook path gives the get
default with a lower-case t, while a null title on the webhook path and a
missing or null title on the on-demand path give the default with a
capital T. -/
theorem C8_amended :
    (∀ (p : Payload) (pd : PRData) (m : PRMetadata), p.pull_request = JField.val pd →
      pd.title = JField.absent → extract_pr_metadata p = Except.ok m → m.title = "No title")
    ∧ (∀ (p : Payload) (pd : PRData) (m : PRMetadata), p.pull_request = JField.val pd →
      pd.title = JField.null → extract_pr_metadata p = Except.ok m → m.title = "No Title")
    ∧ (∀ (d : PRData) (repo : String) (m : PRMetadata),
      create_pr_metadata_from_api d repo = Except.ok m →
      d.title = JField.absent ∨ d.title = JField.null → m.title = "No Title") := by
  refine ⟨?_, ?_, ?_⟩
  · intro p pd m hpr ht h
    obtain ⟨pd2, rd, n, s, hpr2, hrep, hn, hn0, hs, hs0, hm⟩ := extract_ok_fields p m h
    rw [hpr] at hpr2
    injection hpr2 with e
    subst e
    subst hm
    simp [buildMeta, webhookTitle, ht]
  · intro p pd m hpr ht h
    obtain ⟨pd2, rd, n, s, hpr2, hrep, hn, hn0, hs, hs0, hm⟩ := extract_ok_fields p m h
    rw [hpr] at hpr2
    injection hpr2 with e
    subst e
    subst hm
    simp [buildMeta, webhookTitle, ht]
  · intro d repo m h ht
    rcases d with ⟨fn, fu, ft2, fb, fba, fh, fc, fs, fd⟩
    simp only at ht
    rcases fn with _ | _ | k <;> simp [create_pr_metadata_from_api] at h <;>
      rcases ht with ht | ht <;> subst ht <;> simp [← h, strOrDefault]

/-- C8 witness: the title extracted from the delivery without a title key
is the lower-case default. -/
theorem C8_witness :
    ({ pr_number := 1, repository := "o/r", author := "unknown", title := "No title",
       description := "", base_branch := "main", head_branch := "unknown",
       created_at := "" } : PRMetadata).title = "No title" :=
  C8_amended.1 c8_absent { number := JField.val 1 } _ rfl rfl rfl
